import Mathlib

/-!
Verification development for the Plant_Scheduler repository
(Flowstate Phase 2 factory scheduler).

The definitions below are shallow embeddings of the scheduler core:
`data_loader.py` (parameters and table lookups), `model_builder.py`
(CP-SAT constraint construction, embedded as propositions over the
integer decision values they constrain), and `phase2_scheduler.py`
(post-solve CIP placement, solution extraction, initial-state carry
writing, and the two-phase orchestration control flow).

Machine integers are modelled as `Int` / `Nat` (the Python code uses
unbounded ints throughout).  Table lookups (`dict.get` with defaults)
become association-list lookups with `Option.getD`.  The CP-SAT
reified constraints (`OnlyEnforceIf`) become implications over the
realized values of the decision variables, so a "feasible solution"
is exactly an assignment satisfying the embedded proposition.
-/

namespace PlantScheduler

/-- Scalar parameters, from `data_loader.py` `Params` (lines 38-71).
Float-valued knobs (`changeover_penalty`, `min_run_pct_of_qty`) are
not needed by any constraint embedded here and are omitted. -/
structure Params where
  horizon_h : Int := 336
  cip_interval_h : Int := 120
  cip_duration_h : Int := 6
  max_lines_per_order : Int := 3
  min_run_hours : Int := 4
  allow_week1_in_week0 : Bool := true
  objective_makespan_weight : Int := 1
  objective_changeover_weight : Int := 100
  objective_cip_defer_weight : Int := 10
  objective_idle_weight : Int := 0
  co_topload_weight : Int := 50
  co_ttp_weight : Int := 10
  co_ffs_weight : Int := 10
  co_casepacker_weight : Int := 10
  co_base_weight : Int := 5
  co_conv_org_weight : Int := 30
  co_cinn_weight : Int := 20
  co_flavor_weight : Int := 5
deriving Repr, DecidableEq

/-- Per-pair machine-change record, from `data_loader.py` `Data.load`
(lines 188-206): the `machine_changes` table maps an ordered SKU pair
to the per-machine change flags and the three auxiliary columns. -/
structure MachineChange where
  ttp : Int
  ffs : Int
  topload : Int
  casepacker : Int
  conv_to_org : Int
  cinn_to_non : Int
  added_flavors : Int
deriving Repr, DecidableEq

/-- Association-list lookup, the embedding of Python `dict.get(key)`. -/
def lookupPair {α : Type} (table : List ((String × String) × α)) (p : String × String) :
    Option α :=
  (table.find? (fun e => e.1 == p)).map (·.2)

/-- Setup hours for an ordered SKU pair, from `model_builder.py` line 324:
`data.setup.get((i_sku, j_sku), 0)` — a missing pair defaults to 0 hours. -/
def setupHours (setup : List ((String × String) × Int)) (fromSku toSku : String) : Int :=
  (lookupPair setup (fromSku, toSku)).getD 0

/-- Weighted changeover cost for one adjacent ordered pair, from
`model_builder.py` lines 412-424: the machine-change record is looked up
with a default of all four machine flags set to 1, and the cost is
`W_base + W_top*topload + W_ttp*ttp + W_ffs*ffs + W_cp*casepacker`.
The `conv_to_org`, `cinn_to_non`, `added_flavors` columns and their
weights are not read here. -/
def pairCost (P : Params) (mcTable : List ((String × String) × MachineChange))
    (iSku jSku : String) : Int :=
  match lookupPair mcTable (iSku, jSku) with
  | some mc =>
      P.co_base_weight + P.co_topload_weight * mc.topload + P.co_ttp_weight * mc.ttp
        + P.co_ffs_weight * mc.ffs + P.co_casepacker_weight * mc.casepacker
  | none =>
      P.co_base_weight + P.co_topload_weight * 1 + P.co_ttp_weight * 1
        + P.co_ffs_weight * 1 + P.co_casepacker_weight * 1

/-- Modelled from the spec (section 4.3.7, the sentence behind claim C2):
`pair_cost = W_base + W_top*topload + W_ttp*ttp + W_ffs*ffs + W_cp*casepacker
+ W_conv*conv_to_org + W_cinn*cinn_to_non + W_flavor*added_flavors`.
Written for comparison against `pairCost`, which is translated from the
source. -/
def pairCostSpec (P : Params) (mcTable : List ((String × String) × MachineChange))
    (iSku jSku : String) : Int :=
  match lookupPair mcTable (iSku, jSku) with
  | some mc =>
      P.co_base_weight + P.co_topload_weight * mc.topload + P.co_ttp_weight * mc.ttp
        + P.co_ffs_weight * mc.ffs + P.co_casepacker_weight * mc.casepacker
        + P.co_conv_org_weight * mc.conv_to_org + P.co_cinn_weight * mc.cinn_to_non
        + P.co_flavor_weight * mc.added_flavors
  | none =>
      P.co_base_weight + P.co_topload_weight * 1 + P.co_ttp_weight * 1
        + P.co_ffs_weight * 1 + P.co_casepacker_weight * 1

/-- Total weighted changeover cost charged on a line for a realized set of
successor pairs, from `model_builder.py` lines 403-435: each pair whose
`succ` boolean is true contributes `pair_cost` when `pair_cost > 0`
(terms with non-positive cost are never added to `co_cost_terms`). -/
def chargedCoCost (P : Params) (mcTable : List ((String × String) × MachineChange))
    (succPairs : List (String × String)) : Int :=
  (succPairs.map (fun p =>
    if pairCost P mcTable p.1 p.2 > 0 then pairCost P mcTable p.1 p.2 else 0)).sum

/-! ### CIP interval selection (claim C1)

`model_builder.py` lines 543-545: in full mode the CIP section binds
`dur = P.cip_duration_h` and `interval = P.cip_interval_h` once, before
the per-line loop; every CIP-needed threshold, placement window and
tail-coverage bound for every line then uses this one `interval`.  The
per-line override table `data.cip_interval_map` is available but never
consulted there. -/

/-- CIP interval used by `build_model` for line `l`, from
`model_builder.py` line 545 (`interval = P.cip_interval_h`): the value
does not depend on `l` or on the per-line table `cip_interval_map`,
which `build_model` never reads. -/
def buildModelCipInterval (P : Params) (_cipMap : Int → Option Int) (_l : Int) : Int :=
  P.cip_interval_h

/-- Per-line CIP interval with override, from `data_loader.py` lines
398-400 (`self.cip_interval_map.get(line_id, self.P.cip_interval_h)`,
used for trial-window widening) and equally `validate_schedule.py`
line 141 (`cip_interval_map.get(line_id, interval_h)`, used to audit
the emitted schedule). -/
def lineCipInterval (cipMap : Int → Option Int) (P : Params) (l : Int) : Int :=
  (cipMap l).getD P.cip_interval_h

/-! ### CIP-needed flags and clock span (claim C4)

`model_builder.py` lines 595-630, full mode, for a line with eligible
orders.  The reified CP-SAT constraints are embedded as implications
over the realized values. -/

/-- Clock-span constraints for a line, from `model_builder.py` lines
603-607: `clock_span == last_end - first_start` enforced when
`any_on_line`, and `clock_span == 0` enforced when not. -/
def clockSpanConstraints (anyOn : Bool) (firstStart lastEnd span : Int) : Prop :=
  (anyOn = true → span = lastEnd - firstStart) ∧
  (anyOn = false → span = 0)

/-- CIP-needed flag constraints, from `model_builder.py` lines 610-630:
for k = 1, 2, 3 the boolean `b_k` is reified against
`clock_span + carry ≥ k * interval` (with the negation enforced as
`≤ k * interval - 1`), and the implications `b2 → b1`, `b3 → b2` are
added. -/
def cipFlagConstraints (interval carry span : Int) (b1 b2 b3 : Bool) : Prop :=
  (b1 = true → span + carry ≥ interval) ∧
  (b1 = false → span + carry ≤ interval - 1) ∧
  (b2 = true → span + carry ≥ 2 * interval) ∧
  (b2 = false → span + carry ≤ 2 * interval - 1) ∧
  (b3 = true → span + carry ≥ 3 * interval) ∧
  (b3 = false → span + carry ≤ 3 * interval - 1) ∧
  (b2 = true → b1 = true) ∧
  (b3 = true → b2 = true)

instance (anyOn : Bool) (firstStart lastEnd span : Int) :
    Decidable (clockSpanConstraints anyOn firstStart lastEnd span) := by
  unfold clockSpanConstraints; infer_instance

instance (interval carry span : Int) (b1 b2 b3 : Bool) :
    Decidable (cipFlagConstraints interval carry span b1 b2 b3) := by
  unfold cipFlagConstraints; infer_instance

/-! ### Fallback CIP placer: number of CIPs needed (claim C3)

`phase2_scheduler.py` `compute_cip_windows`, lines 335-347.  The
cumulative counter `run_done` starts at `carryover` and accumulates the
segment hours, so `total_run = carryover + sum(segment hours)`; then a
loop starting from `r = carryover` counts one CIP per `interval_h` step
while `r + interval_h <= total_run`. -/

/-- The while-loop of `compute_cip_windows` lines 344-347
(`while r + interval_h <= total_run: n_cip += 1; r += interval_h`),
embedded with explicit fuel (the Python loop terminates whenever
`interval_h ≥ 1`, and the fuel chosen in `nCipFallback` is sufficient
for that case). -/
def cipCountLoop (interval totalRun : Nat) : Nat → Nat → Nat → Nat
  | 0, _, n => n
  | fuel + 1, r, n =>
      if r + interval ≤ totalRun then cipCountLoop interval totalRun fuel (r + interval) (n + 1)
      else n

/-- Number of CIPs the fallback placer requires for a line, from
`phase2_scheduler.py` lines 335-347: `run_done` is seeded with the
carryover (line 336), each segment adds `e - s` (line 338),
`total_run = run_done` (line 342), and the counting loop starts at
`r = carryover` (line 344). -/
def nCipFallback (interval carryover : Nat) (segHours : List Nat) : Nat :=
  let totalRun := carryover + segHours.sum
  cipCountLoop interval totalRun (totalRun + 1) carryover 0

/-- Modelled from the spec (section 4.4 step 2, the sentence behind
claim C3): the number of CIPs needed is the largest `n` with
`n * I ≤ total_run_hours + carry`, where `total_run_hours` is the total
production hours.  For `I ≥ 1` that largest `n` is
`(total_run_hours + carry) / I` (floor division). -/
def nCipSpec (interval carryover : Nat) (segHours : List Nat) : Nat :=
  (segHours.sum + carryover) / interval

/-! ### Per-assignment segment variables and constraints (claim C6)

One `(line, order)` assignment in `build_model` owns the decision
variables created in `model_builder.py` lines 61-132 plus the
per-segment minimum-run constraints (lines 155-160 for trials pinned to
their line, lines 183-188 for ordinary capable orders — the two
branches add the same two constraints). -/

/-- Realized values of the per-assignment decision variables of
`model_builder.py` lines 48-113. -/
structure SegVars where
  present : Bool
  seg_a_start : Int
  seg_a_end : Int
  seg_a_run : Int
  seg_b_present : Bool
  seg_b_start : Int
  seg_b_end : Int
  seg_b_run : Int
  run_h : Int
  eff_end : Int
deriving Repr, DecidableEq

/-- The constraints `build_model` places on one assignment
(`model_builder.py` lines 73-132 and the shared per-segment minimums of
lines 155-160 / 183-188), as a proposition over the realized values:
variable domain bounds from `NewIntVar(0, ...)`, the optional-interval
equations `start + size = end` enforced when the interval is present,
the `eff_end` selection, the linking constraints, the due window
(`dsEff` is the effective due start, `de` the due end), and the
per-segment minimum runs. -/
def segConstraints (H minRun dsEff de : Int) (a : SegVars) : Prop :=
  (0 ≤ a.seg_a_run) ∧ (0 ≤ a.seg_b_run) ∧ (0 ≤ a.run_h) ∧
  (0 ≤ a.seg_a_start ∧ a.seg_a_start ≤ H) ∧
  (0 ≤ a.seg_a_end ∧ a.seg_a_end ≤ H) ∧
  (0 ≤ a.seg_b_start ∧ a.seg_b_start ≤ H) ∧
  (0 ≤ a.seg_b_end ∧ a.seg_b_end ≤ H) ∧
  (0 ≤ a.eff_end ∧ a.eff_end ≤ H) ∧
  (a.present = true → a.seg_a_start + a.seg_a_run = a.seg_a_end) ∧
  (a.seg_b_present = true → a.seg_b_start + a.seg_b_run = a.seg_b_end) ∧
  (a.seg_b_present = true → a.eff_end = a.seg_b_end) ∧
  (a.seg_b_present = false → a.eff_end = a.seg_a_end) ∧
  (a.seg_b_present = true → a.present = true) ∧
  (a.seg_a_run + a.seg_b_run = a.run_h) ∧
  (a.seg_b_present = true → a.seg_b_start ≥ a.seg_a_end) ∧
  (a.seg_b_present = false → a.seg_b_run = 0) ∧
  (a.present = false → a.seg_a_end = 0) ∧
  (a.present = true → a.seg_a_start ≥ dsEff) ∧
  (a.present = true → a.seg_a_end ≤ de + 1) ∧
  (a.seg_b_present = true → a.seg_b_end ≤ de + 1) ∧
  (a.present = true → a.seg_a_run ≥ minRun) ∧
  (a.seg_b_present = true → a.seg_b_run ≥ minRun)

instance (H minRun dsEff de : Int) (a : SegVars) :
    Decidable (segConstraints H minRun dsEff de a) := by
  unfold segConstraints; infer_instance

/-- One row of `schedule_phase2.csv`, from `phase2_scheduler.py`
`_solution_to_rows` lines 537-549 and 559-571 (the `line_name`,
`sku_description` and formatted datetime columns are presentation-only
and omitted). -/
structure ScheduleRow where
  line_id : Int
  order_id : String
  sku : String
  start_hour : Int
  end_hour : Int
  run_hours : Int
  is_trial : Bool
deriving Repr, DecidableEq

/-- Schedule rows emitted for one assignment by `_solution_to_rows`
(`phase2_scheduler.py` lines 520-571): nothing when the order is not
present on the line (line 523 `continue`); a `seg_a` row when
`seg_a_run > 0` (line 534); a `seg_b` row when `seg_b_present` and
`seg_b_run > 0` (lines 552-555).  `off` is the `hour_offset` added to
both hour columns. -/
def rowsForAssignment (l : Int) (oid sku : String) (isTrial : Bool) (off : Int)
    (a : SegVars) : List ScheduleRow :=
  if a.present = false then []
  else
    (if a.seg_a_run > 0 then
      [⟨l, oid, sku, a.seg_a_start + off, a.seg_a_end + off, a.seg_a_run, isTrial⟩]
    else []) ++
    (if a.seg_b_present = true then
      (if a.seg_b_run > 0 then
        [⟨l, oid, sku, a.seg_b_start + off, a.seg_b_end + off, a.seg_b_run, isTrial⟩]
      else [])
    else [])

/-! ### Initial-state carry writer (claim C5)

`phase2_scheduler.py` `write_week1_initial_states`, lines 403-486. -/

/-- One production segment of a line, as grouped by
`write_week1_initial_states` lines 430-438. -/
structure ProdSeg where
  start_hour : Int
  end_hour : Int
  run_hours : Int
  sku : String
deriving Repr, DecidableEq

/-- Last CIP end hour for a line, from `phase2_scheduler.py` lines
425-427 and 444: the maximum `end_hour` over the CIP rows of the line,
and 0 when the line has none (`last_cip_end_by_line.get(l, 0)`).  CIP
end hours are non-negative (solver variables over `[0, H]` plus a
non-negative offset), for which `foldl max 0` agrees with the Python
`max` over a non-empty list. -/
def lastCipEndOf (cipEnds : List Int) : Int :=
  cipEnds.foldl max 0

/-- Carryover run-hours since the last CIP, before clamping, from
`phase2_scheduler.py` lines 454-457: the sum of `run_hours` over the
production segments whose `start_hour` is at or after the last CIP
end. -/
def week1CarryRaw (prods : List ProdSeg) (lastCipEnd : Int) : Int :=
  ((prods.filter (fun p => decide (p.start_hour ≥ lastCipEnd))).map (fun p => p.run_hours)).sum

/-- Carryover value written to `week1_initial_states.csv`, from
`phase2_scheduler.py` line 480: `int(min(carryover, 119))` — the cap is
the literal 119, independent of the configured CIP interval. -/
def week1WrittenCarry (prods : List ProdSeg) (lastCipEnd : Int) : Int :=
  min (week1CarryRaw prods lastCipEnd) 119

/-- Modelled from the spec (section 4.7, the sentence behind claim C5):
the carryover is clamped to the range `[0, I - 1]` where `I` is the
configured CIP interval.  Written for comparison against
`week1WrittenCarry`, which is translated from the source. -/
def week1WrittenCarrySpec (P : Params) (prods : List ProdSeg) (lastCipEnd : Int) : Int :=
  min (max (week1CarryRaw prods lastCipEnd) 0) (P.cip_interval_h - 1)

/-! ### Two-phase orchestration control flow (claim C7)

`phase2_scheduler.py` `_run_two_phase`, lines 619-854.  The CP-SAT
solver itself is external: the orchestrator is embedded as a function
of the two solve statuses and of the rows extracted from each solve,
returning which output files the run writes and the status line put at
the head of `solver_kpis.txt`. -/

/-- CP-SAT solver status, from `ortools.sat.python.cp_model` as
consumed by `phase2_scheduler.py` (`status in (cp_model.FEASIBLE,
cp_model.OPTIMAL)` checks at lines 704 and 812). -/
inductive SolveStatus
  | optimal
  | feasible
  | infeasible
  | unknown
  | modelInvalid
deriving Repr, DecidableEq

/-- Whether a status counts as a successful solve
(`status in (cp_model.FEASIBLE, cp_model.OPTIMAL)`). -/
def SolveStatus.isOk : SolveStatus → Bool
  | .optimal => true
  | .feasible => true
  | _ => false

/-- The string `solver.StatusName(status)` returns for each status. -/
def SolveStatus.name : SolveStatus → String
  | .optimal => "OPTIMAL"
  | .feasible => "FEASIBLE"
  | .infeasible => "INFEASIBLE"
  | .unknown => "UNKNOWN"
  | .modelInvalid => "MODEL_INVALID"

/-- One row of `produced_vs_bounds.csv`, from `_solution_to_rows`
lines 573-585. -/
structure BoundsRow where
  order_id : String
  sku : String
  qty_min : Int
  qty_max : Int
  produced : Int
  in_bounds : Bool
deriving Repr, DecidableEq

/-- One row of `cip_windows.csv`, from `extract_cip_windows`
lines 388-399 (`line_name` omitted). -/
structure CipRow where
  line_id : Int
  start_hour : Int
  end_hour : Int
deriving Repr, DecidableEq

/-- The files a two-phase run writes: `schedule_phase2.csv`,
`produced_vs_bounds.csv`, `cip_windows.csv` (each `none` when the run
does not write it), how many times `week1_initial_states.csv` is
written, and the status line heading `solver_kpis.txt`. -/
structure TwoPhaseOutputs where
  scheduleFile : Option (List ScheduleRow)
  boundsFile : Option (List BoundsRow)
  cipFile : Option (List CipRow)
  initialStatesWrites : Nat
  kpiStatus : String
deriving Repr, DecidableEq

/-- Control flow of `_run_two_phase` (`phase2_scheduler.py` lines
619-854), embedded over the externally produced solve statuses and
extracted rows: the empty-Week-0 early return (lines 677-680), the
Week-0 failure return (lines 704-708), the intermediate
`week1_initial_states.csv` write after Week-0 success (lines 718-721),
the empty-Week-1 return (lines 781-787), the Week-1 failure return
(lines 812-820), and the combined-output path (lines 833-851,
including the final initial-states write). -/
def runTwoPhase
    (ordersW0 : List String) (status0 : SolveStatus)
    (sched0 : List ScheduleRow) (bounds0 : List BoundsRow) (cips0 : List CipRow)
    (ordersW1 : List String) (status1 : SolveStatus)
    (sched1 : List ScheduleRow) (bounds1 : List BoundsRow) (cips1 : List CipRow) :
    TwoPhaseOutputs :=
  if ordersW0.isEmpty then
    ⟨none, none, none, 0, "Status: TWO_PHASE — no Week-0 orders"⟩
  else if status0.isOk = false then
    ⟨none, none, none, 0, "Status: TWO_PHASE — Week-0 " ++ status0.name⟩
  else if ordersW1.isEmpty then
    ⟨some sched0, some bounds0, if cips0.isEmpty then none else some cips0, 1,
      "Status: TWO_PHASE — Week-0 FEASIBLE, no Week-1 orders"⟩
  else if status1.isOk = false then
    ⟨some sched0, some bounds0, if cips0.isEmpty then none else some cips0, 1,
      "Status: TWO_PHASE — Week-0 FEASIBLE, Week-1 " ++ status1.name⟩
  else
    ⟨some (sched0 ++ sched1), some (bounds0 ++ bounds1),
      if (cips0 ++ cips1).isEmpty then none else some (cips0 ++ cips1), 2,
      "Status: TWO_PHASE — Week-0 and Week-1 FEASIBLE"⟩

/-! ### Output write methods (claim C8) -/

/-- How a file is written to disk. -/
inductive WriteMethod
  | direct
  | atomicTempRename
deriving Repr, DecidableEq

/-- The output files produced by a solver run. -/
inductive OutputKind
  | scheduleCsv
  | producedVsBoundsCsv
  | cipWindowsCsv
  | week1InitialStatesCsv
  | progressJson
deriving Repr, DecidableEq, Fintype

/-- The write method each solver-run output actually goes through:
`schedule_phase2.csv`, `produced_vs_bounds.csv` and `cip_windows.csv`
are written with plain `pd.DataFrame(...).to_csv(...)` in
`write_solution` (`phase2_scheduler.py` lines 602, 610, 616) and in
`_run_two_phase` (lines 782-785, 814-817, 837-840);
`week1_initial_states.csv` with plain `df.to_csv` in
`write_week1_initial_states` (line 486); `solver_progress.json` via
`tempfile.mkstemp` then `os.rename` in `helpers/solver_progress.py`
`_write` (lines 35-46; it falls back to a direct write only if the
atomic path raises).  The temp-plus-`os.replace` helper
`helpers/safe_io.py` `safe_write_csv` exists but is called only from
the UI pages and the version manager, never from the solver run. -/
def writeMethodOf : OutputKind → WriteMethod
  | .scheduleCsv => .direct
  | .producedVsBoundsCsv => .direct
  | .cipWindowsCsv => .direct
  | .week1InitialStatesCsv => .direct
  | .progressJson => .atomicTempRename

/-- Modelled from the spec (section 5 and the sentence behind claim
C8): every output file produced by a run is written via a temp file
followed by an atomic rename. -/
def allOutputsAtomicSpec : Prop :=
  ∀ k : OutputKind, writeMethodOf k = WriteMethod.atomicTempRename

instance : Decidable allOutputsAtomicSpec := by
  unfold allOutputsAtomicSpec
  exact Fintype.decidableForallFintype

/-! ### Two-phase parameter objects and the Week-0 fill rule (claim C10) -/

/-- Week-0 due-hour boundary, `model_builder.py` line 13. -/
def WEEK0_END : Int := 167

/-- Week-0 fill start, `model_builder.py` line 15. -/
def WEEK0_FILL_START : Int := 120

/-- Effective due start of an order, from `model_builder.py` lines
66-71: Week-1 orders (`due_start > 167`) are pulled to hour 120 only
when `P.allow_week1_in_week0` holds. -/
def dsEffOf (P : Params) (dsRaw : Int) : Int :=
  if dsRaw > WEEK0_END ∧ P.allow_week1_in_week0 = true then WEEK0_FILL_START else dsRaw

/-- Whether `build_model` emits the Week-0 / Week-1 adjacency-gap
constraint block, from `model_builder.py` lines 439-450: the block is
built only when `P.allow_week1_in_week0` holds and both the Week-0 and
Week-1 order-index lists are non-empty. -/
def week01GapBlockBuilt (P : Params) (week0Idxs week1Idxs : List Nat) : Bool :=
  P.allow_week1_in_week0 && !week0Idxs.isEmpty && !week1Idxs.isEmpty

/-- The Week-0 parameter object `P0` built by `_run_two_phase`
(`phase2_scheduler.py` lines 630-655): every field of the incoming `P`
is passed through except `horizon_h = 168`,
`allow_week1_in_week0 = False`, and the optional command-line
`min_run_hours` override. -/
def week0PhaseParams (P : Params) (minRunOverride : Option Int) : Params :=
  { P with
    horizon_h := 168
    allow_week1_in_week0 := false
    min_run_hours := minRunOverride.getD P.min_run_hours }

/-- The Week-1 parameter object `P1` built by `_run_two_phase`
(`phase2_scheduler.py` lines 726-751): every field of the incoming `P`
is passed through except `horizon_h = 336`,
`allow_week1_in_week0 = False`, and the optional command-line
`min_run_hours` override. -/
def week1PhaseParams (P : Params) (minRunOverride : Option Int) : Params :=
  { P with
    horizon_h := 336
    allow_week1_in_week0 := false
    min_run_hours := minRunOverride.getD P.min_run_hours }

/-! ## Concrete instances used by the theorems below -/

/-- The default parameter record (`data_loader.py` `Params` defaults). -/
def defaultParams : Params := {}

/-- A per-line CIP-interval override table: line 1 overridden to 100
hours (a concrete `line_cip_hrs.csv` content). -/
def cipMapEx : Int → Option Int := fun l => if l = 1 then some 100 else none

/-- A machine-change record whose only change is the organic
conversion flag (a concrete `changeovers.csv` row content). -/
def mcConvOnly : MachineChange := ⟨0, 0, 0, 0, 1, 0, 0⟩

/-- A one-row machine-change table for the ordered pair (A, B). -/
def mcTableEx : List ((String × String) × MachineChange) := [(("A", "B"), mcConvOnly)]

/-- Parameters with the CIP interval configured to 130 hours (as the
`[cip] interval_h` key of `flowstate.toml` allows). -/
def paramsI130 : Params := { cip_interval_h := 130 }

/-- A single production segment of 125 run-hours starting at hour 0. -/
def prodsEx : List ProdSeg := [⟨0, 125, 125, "A"⟩]

/-- A realized assignment: present, one 5-hour primary segment at
hours 0-5, no continuation segment. -/
def segVarsEx : SegVars := ⟨true, 0, 5, 5, false, 0, 0, 0, 5, 5⟩

/-! ## Claim theorems -/

/-- Claim C1 (code bug): the claim says the CIP constraints built for a
line with a `max_cip_hrs` override use that override as the interval.
In the code, `build_model` binds `interval = P.cip_interval_h`
(`model_builder.py` line 545) and never consults
`data.cip_interval_map`, so with line 1 overridden to 100 hours the
model builds its CIP thresholds from the global 120 — while the same
override is honoured by the trial-window widening in `data_loader.py`
and by the schedule auditor in `validate_schedule.py`
(`lineCipInterval`). -/
theorem C1_build_model_ignores_line_cip_override :
    buildModelCipInterval defaultParams cipMapEx 1 = 120 ∧
    lineCipInterval cipMapEx defaultParams 1 = 100 ∧
    buildModelCipInterval defaultParams cipMapEx 1 ≠ lineCipInterval cipMapEx defaultParams 1 := by
  decide

/-- Claim C3 (code bug): the claim (and the docstring of
`compute_cip_windows`, which says CIPs are due every 120 production
hours including carryover) requires the number of CIPs to be the
largest `n` with `n * I ≤ total_run_hours + carry`.  In the code the
carryover is added to `total_run` and also used as the starting value
of the counting loop, so it cancels: with interval 120, carryover 119
and a single 2-hour segment the code requires 0 CIPs where the claim
requires 1. -/
theorem C3_fallback_cip_count_drops_carryover :
    nCipFallback 120 119 [2] = 0 ∧
    nCipSpec 120 119 [2] = 1 ∧
    nCipFallback 120 119 [2] ≠ nCipSpec 120 119 [2] := by
  decide

/-- Claim C8 counterexample: the claim says every output file of a run
is written via temp file plus atomic rename, but `schedule_phase2.csv`
is written with a plain direct `to_csv` call, so the universally
quantified spec statement is false. -/
theorem C8_counterexample_schedule_written_directly :
    writeMethodOf OutputKind.scheduleCsv = WriteMethod.direct ∧
    ¬ allOutputsAtomicSpec := by
  decide

/-- Claim C8 (amended): among the files a solver run writes, only the
progress document `solver_progress.json` goes through the
temp-file-plus-atomic-rename path; the schedule, produced-vs-bounds,
CIP-windows and next-initial-states CSVs are written directly. -/
theorem C8_only_progress_doc_atomic :
    ∀ k : OutputKind, writeMethodOf k = WriteMethod.atomicTempRename ↔
      k = OutputKind.progressJson := by
  decide

/-- Claim C9: for an ordered SKU pair absent from the changeover
table, the weighted changeover cost charges all four machine changes —
`W_base + W_top + W_ttp + W_ffs + W_cp` — while the setup hours for
the same missing pair default to 0 in the ordering constraints. -/
theorem C9_missing_pair_full_cost_zero_setup
    (P : Params) (mcTable : List ((String × String) × MachineChange))
    (setup : List ((String × String) × Int)) (i j : String)
    (hmc : lookupPair mcTable (i, j) = none)
    (hsetup : lookupPair setup (i, j) = none) :
    pairCost P mcTable i j =
      P.co_base_weight + P.co_topload_weight + P.co_ttp_weight + P.co_ffs_weight +
        P.co_casepacker_weight ∧
    setupHours setup i j = 0 := by
  constructor
  · unfold pairCost
    rw [hmc]
    ring
  · unfold setupHours
    rw [hsetup]
    rfl

/-- Witness for C9 at the empty tables and the pair (A, B), with the
default weights: the full-change cost is 5 + 50 + 10 + 10 + 10. -/
theorem C9_missing_pair_full_cost_zero_setup_witness :
    pairCost defaultParams [] "A" "B" =
      defaultParams.co_base_weight + defaultParams.co_topload_weight +
        defaultParams.co_ttp_weight + defaultParams.co_ffs_weight +
        defaultParams.co_casepacker_weight ∧
    setupHours [] "A" "B" = 0 :=
  C9_missing_pair_full_cost_zero_setup defaultParams [] [] "A" "B" rfl rfl

/-- Claim C10: both parameter objects built by the two-phase
orchestrator have `allow_week1_in_week0 = false` (hard-coded,
regardless of the incoming parameter record and hence of any
command-line flag), so under them the Week-0 fill rule is inert
(`ds_eff` always equals the raw due start) and the Week-0/Week-1
adjacency-gap constraint block is never built. -/
theorem C10_two_phase_disables_week1_fill (P : Params) (mr : Option Int) :
    (week0PhaseParams P mr).allow_week1_in_week0 = false ∧
    (week1PhaseParams P mr).allow_week1_in_week0 = false ∧
    (∀ ds : Int, dsEffOf (week0PhaseParams P mr) ds = ds) ∧
    (∀ ds : Int, dsEffOf (week1PhaseParams P mr) ds = ds) ∧
    (∀ w0 w1 : List Nat, week01GapBlockBuilt (week0PhaseParams P mr) w0 w1 = false) ∧
    (∀ w0 w1 : List Nat, week01GapBlockBuilt (week1PhaseParams P mr) w0 w1 = false) := by
  refine ⟨rfl, rfl, ?_, ?_, ?_, ?_⟩
  · intro ds
    simp [dsEffOf, week0PhaseParams]
  · intro ds
    simp [dsEffOf, week1PhaseParams]
  · intro w0 w1
    simp [week01GapBlockBuilt, week0PhaseParams]
  · intro w0 w1
    simp [week01GapBlockBuilt, week1PhaseParams]

/-- Claim C2 counterexample: take default weights and a changeover row
A → B whose only change is `conv_to_org = 1` (all four machine flags
0).  The cost the model charges for the successor pair is
`W_base = 5`, while the claimed formula adds `W_conv * conv_to_org`
and gives 35: the conversion, cinnamon and added-flavor terms are not
part of the charged cost. -/
theorem C2_counterexample_conv_weight_not_charged :
    chargedCoCost defaultParams mcTableEx [("A", "B")] = 5 ∧
    pairCostSpec defaultParams mcTableEx "A" "B" = 35 ∧
    chargedCoCost defaultParams mcTableEx [("A", "B")] ≠
      pairCostSpec defaultParams mcTableEx "A" "B" := by
  decide

/-- Claim C2 (amended): when successor variables exist, the weighted
changeover cost charged on a line equals the sum over its realized
successor pairs of `W_base + W_top*topload + W_ttp*ttp + W_ffs*ffs +
W_cp*casepacker` (the `pairCost` of each pair) — with no
`conv_to_org`, `cinn_to_non` or `added_flavors` terms — provided each
pair cost is positive (non-positive pair costs are silently dropped
from the objective sum by the `pair_cost > 0` guard). -/
theorem C2_weighted_co_cost_four_terms
    (P : Params) (mcTable : List ((String × String) × MachineChange))
    (succPairs : List (String × String))
    (hpos : ∀ p ∈ succPairs, 0 < pairCost P mcTable p.1 p.2) :
    chargedCoCost P mcTable succPairs =
      (succPairs.map (fun p => pairCost P mcTable p.1 p.2)).sum := by
  unfold chargedCoCost
  induction succPairs with
  | nil => rfl
  | cons q ps ih =>
      simp only [List.map_cons, List.sum_cons]
      rw [if_pos (hpos q (List.mem_cons_self q ps))]
      rw [ih (fun r hr => hpos r (List.mem_cons_of_mem q hr))]

/-- Witness for C2 at the one-row table: the single pair (A, B) has
positive cost 5, and the charged line cost equals the pair-cost sum. -/
theorem C2_weighted_co_cost_four_terms_witness :
    chargedCoCost defaultParams mcTableEx [("A", "B")] =
      (([("A", "B")] : List (String × String)).map
        (fun p => pairCost defaultParams mcTableEx p.1 p.2)).sum :=
  C2_weighted_co_cost_four_terms defaultParams mcTableEx [("A", "B")] (by decide)

/-- Claim C4: in any assignment satisfying the full-mode CIP-flag
constraints of `build_model`, each `b_k` is true exactly when
`clock_span + carry ≥ k * interval`, the chain implications `b2 → b1`
and `b3 → b2` hold, and the clock span equals `last_end - first_start`
on a non-empty line and 0 on an empty one. -/
theorem C4_cip_flags_iff_thresholds
    (interval carry firstStart lastEnd span : Int) (anyOn b1 b2 b3 : Bool)
    (hspan : clockSpanConstraints anyOn firstStart lastEnd span)
    (hflags : cipFlagConstraints interval carry span b1 b2 b3) :
    (b1 = true ↔ span + carry ≥ interval) ∧
    (b2 = true ↔ span + carry ≥ 2 * interval) ∧
    (b3 = true ↔ span + carry ≥ 3 * interval) ∧
    (b2 = true → b1 = true) ∧
    (b3 = true → b2 = true) ∧
    (anyOn = true → span = lastEnd - firstStart) ∧
    (anyOn = false → span = 0) := by
  obtain ⟨hs1, hs2⟩ := hspan
  obtain ⟨h1, h1n, h2, h2n, h3, h3n, h21, h32⟩ := hflags
  refine ⟨⟨fun h => h1 h, fun h => ?_⟩, ⟨fun h => h2 h, fun h => ?_⟩,
    ⟨fun h => h3 h, fun h => ?_⟩, h21, h32, hs1, hs2⟩
  · cases hb : b1 with
    | false => exact absurd (h1n hb) (by omega)
    | true => rfl
  · cases hb : b2 with
    | false => exact absurd (h2n hb) (by omega)
    | true => rfl
  · cases hb : b3 with
    | false => exact absurd (h3n hb) (by omega)
    | true => rfl

/-- Witness for C4: interval 120, carryover 10, one line whose
production spans hours 0-115 (`clock_span = 115`), flags
`b1 = true, b2 = false, b3 = false` — a concrete assignment satisfying
the constraints, at which the theorem yields the thresholds. -/
theorem C4_cip_flags_iff_thresholds_witness :
    (true = true ↔ (115 : Int) + 10 ≥ 120) ∧
    (false = true ↔ (115 : Int) + 10 ≥ 2 * 120) ∧
    (false = true ↔ (115 : Int) + 10 ≥ 3 * 120) ∧
    (false = true → true = true) ∧
    (false = true → false = true) ∧
    (true = true → (115 : Int) = 115 - 0) ∧
    (true = false → (115 : Int) = 0) :=
  C4_cip_flags_iff_thresholds 120 10 0 115 115 true true false false
    (by decide) (by decide)

/-- Claim C5 counterexample: with the CIP interval configured to 130
hours, one line producing 125 run-hours and no CIP, the writer outputs
`min(125, 119) = 119`, while the claim (clamp to `[0, I-1] = [0, 129]`)
gives 125: the cap is the literal 119, not `I - 1` of the configured
interval. -/
theorem C5_counterexample_clamp_is_literal_119 :
    week1WrittenCarry prodsEx (lastCipEndOf []) = 119 ∧
    week1WrittenCarrySpec paramsI130 prodsEx (lastCipEndOf []) = 125 ∧
    week1WrittenCarry prodsEx (lastCipEndOf []) ≠
      week1WrittenCarrySpec paramsI130 prodsEx (lastCipEndOf []) := by
  decide

/-- Claim C5 (amended): for a line with at least one production row,
the written carryover is the sum of `run_hours` over that line's
segments starting at or after the last CIP end, capped above at the
literal 119 (not at `I - 1` of the configured interval): the written
value never exceeds 119, it equals the raw sum whenever that sum is at
most 119, and when the line has no CIP rows the raw sum counts all
segments. -/
theorem C5_written_carry_capped_at_119
    (prods : List ProdSeg) (cipEnds : List Int)
    (_hne : prods ≠ [])
    (hnn : ∀ p ∈ prods, 0 ≤ p.start_hour) :
    week1WrittenCarry prods (lastCipEndOf cipEnds) ≤ 119 ∧
    (week1CarryRaw prods (lastCipEndOf cipEnds) ≤ 119 →
      week1WrittenCarry prods (lastCipEndOf cipEnds) =
        week1CarryRaw prods (lastCipEndOf cipEnds)) ∧
    (cipEnds = [] →
      week1CarryRaw prods (lastCipEndOf cipEnds) =
        (prods.map (fun p => p.run_hours)).sum) := by
  refine ⟨min_le_right _ _, fun h => min_eq_left h, fun hc => ?_⟩
  subst hc
  unfold week1CarryRaw
  have hf : prods.filter (fun p => decide (p.start_hour ≥ lastCipEndOf [])) = prods := by
    apply List.filter_eq_self.mpr
    intro a ha
    have h0 : lastCipEndOf ([] : List Int) = 0 := rfl
    simpa [h0] using hnn a ha
  rw [hf]

/-- Witness for C5 at one 125-hour segment starting at hour 0 and no
CIP rows. -/
theorem C5_written_carry_capped_at_119_witness :
    week1WrittenCarry prodsEx (lastCipEndOf []) ≤ 119 ∧
    (week1CarryRaw prodsEx (lastCipEndOf []) ≤ 119 →
      week1WrittenCarry prodsEx (lastCipEndOf []) =
        week1CarryRaw prodsEx (lastCipEndOf [])) ∧
    (([] : List Int) = [] →
      week1CarryRaw prodsEx (lastCipEndOf []) =
        (prodsEx.map (fun p => p.run_hours)).sum) :=
  C5_written_carry_capped_at_119 prodsEx [] (by decide) (by decide)

/-- Claim C6: in any feasible solution, every schedule row emitted by
the solution extractor for an assignment — the `seg_a` row and the
`seg_b` row alike, for demand orders and trials alike — has
`start_hour < end_hour`, `end_hour - start_hour = run_hours`, and
`run_hours ≥ min_run_hours`. -/
theorem C6_emitted_rows_well_formed
    (H minRun dsEff de : Int) (l : Int) (oid sku : String) (isTrial : Bool) (off : Int)
    (a : SegVars) (hc : segConstraints H minRun dsEff de a) :
    ∀ row ∈ rowsForAssignment l oid sku isTrial off a,
      row.start_hour < row.end_hour ∧
      row.end_hour - row.start_hour = row.run_hours ∧
      row.run_hours ≥ minRun := by
  obtain ⟨h1, h2, h3, h4, h5, h6, h7, h8, hA, hB, hEb, hEa, hBP, hrun, hba, hb0,
    ha0, hds, hde, hbde, hAmin, hBmin⟩ := hc
  intro row hrow
  unfold rowsForAssignment at hrow
  split at hrow
  · exact absurd hrow (List.not_mem_nil row)
  · rename_i hpres
    have hp : a.present = true := by
      cases hP : a.present
      · exact absurd hP hpres
      · rfl
    rcases List.mem_append.mp hrow with hm | hm
    · split at hm
      · rename_i hra
        have hrw := List.mem_singleton.mp hm
        subst hrw
        have hAe := hA hp
        have hAm := hAmin hp
        exact ⟨by simp only; omega, by simp only; omega, by simpa using hAm⟩
      · exact absurd hm (List.not_mem_nil row)
    · split at hm
      · rename_i hbp
        split at hm
        · rename_i hrb
          have hrw := List.mem_singleton.mp hm
          subst hrw
          have hBe := hB hbp
          have hBm := hBmin hbp
          exact ⟨by simp only; omega, by simp only; omega, by simpa using hBm⟩
        · exact absurd hm (List.not_mem_nil row)
      · exact absurd hm (List.not_mem_nil row)

/-- Witness for C6 at a present assignment with a single 5-hour
primary segment: the emitted row runs from hour 0 to hour 5. -/
theorem C6_emitted_rows_well_formed_witness :
    (⟨1, "O1", "A", 0, 5, 5, false⟩ : ScheduleRow).start_hour <
        (⟨1, "O1", "A", 0, 5, 5, false⟩ : ScheduleRow).end_hour ∧
      (⟨1, "O1", "A", 0, 5, 5, false⟩ : ScheduleRow).end_hour -
          (⟨1, "O1", "A", 0, 5, 5, false⟩ : ScheduleRow).start_hour =
        (⟨1, "O1", "A", 0, 5, 5, false⟩ : ScheduleRow).run_hours ∧
      (⟨1, "O1", "A", 0, 5, 5, false⟩ : ScheduleRow).run_hours ≥ 4 :=
  C6_emitted_rows_well_formed 336 4 0 335 1 "O1" "A" false 0 segVarsEx (by decide)
    ⟨1, "O1", "A", 0, 5, 5, false⟩ (by decide)

/-- Claim C7: in two-phase mode, when the Week-0 solve returns a
status other than FEASIBLE or OPTIMAL, the orchestrator writes only
the KPI status line — no schedule, bounds, CIP or initial-states
output; when Week-0 succeeds but the Week-1 solve fails, it writes
Week-0's schedule, bounds and (when non-empty) CIP rows, and the KPI
status line records Week-1's failure status. -/
theorem C7_two_phase_failure_handling
    (ordersW0 : List String) (status0 : SolveStatus)
    (sched0 : List ScheduleRow) (bounds0 : List BoundsRow) (cips0 : List CipRow)
    (ordersW1 : List String) (status1 : SolveStatus)
    (sched1 : List ScheduleRow) (bounds1 : List BoundsRow) (cips1 : List CipRow)
    (hw0 : ordersW0.isEmpty = false) :
    (status0.isOk = false →
      runTwoPhase ordersW0 status0 sched0 bounds0 cips0 ordersW1 status1 sched1 bounds1 cips1 =
        ⟨none, none, none, 0, "Status: TWO_PHASE — Week-0 " ++ status0.name⟩) ∧
    (status0.isOk = true → ordersW1.isEmpty = false → status1.isOk = false →
      runTwoPhase ordersW0 status0 sched0 bounds0 cips0 ordersW1 status1 sched1 bounds1 cips1 =
        ⟨some sched0, some bounds0, (if cips0.isEmpty then none else some cips0), 1,
          "Status: TWO_PHASE — Week-0 FEASIBLE, Week-1 " ++ status1.name⟩) := by
  constructor
  · intro h0
    unfold runTwoPhase
    simp [hw0, h0]
  · intro h0 hw1 h1
    unfold runTwoPhase
    simp [hw0, h0, hw1, h1]

/-- Witness for C7: one Week-0 order solved FEASIBLE with one schedule
row, one Week-1 order whose solve returns INFEASIBLE — the run writes
Week-0's rows and records the Week-1 failure. -/
theorem C7_two_phase_failure_handling_witness :
    (SolveStatus.feasible.isOk = false →
      runTwoPhase ["W0-A"] SolveStatus.feasible [⟨1, "W0-A", "A", 0, 5, 5, false⟩]
          [⟨"W0-A", "A", 400, 500, 500, true⟩] [] ["W1-B"] SolveStatus.infeasible [] [] [] =
        ⟨none, none, none, 0, "Status: TWO_PHASE — Week-0 " ++ SolveStatus.feasible.name⟩) ∧
    (SolveStatus.feasible.isOk = true → (["W1-B"] : List String).isEmpty = false →
      SolveStatus.infeasible.isOk = false →
      runTwoPhase ["W0-A"] SolveStatus.feasible [⟨1, "W0-A", "A", 0, 5, 5, false⟩]
          [⟨"W0-A", "A", 400, 500, 500, true⟩] [] ["W1-B"] SolveStatus.infeasible [] [] [] =
        ⟨some [⟨1, "W0-A", "A", 0, 5, 5, false⟩], some [⟨"W0-A", "A", 400, 500, 500, true⟩],
          (if ([] : List CipRow).isEmpty then none else some []), 1,
          "Status: TWO_PHASE — Week-0 FEASIBLE, Week-1 " ++ SolveStatus.infeasible.name⟩) :=
  C7_two_phase_failure_handling ["W0-A"] SolveStatus.feasible
    [⟨1, "W0-A", "A", 0, 5, 5, false⟩] [⟨"W0-A", "A", 400, 500, 500, true⟩] []
    ["W1-B"] SolveStatus.infeasible [] [] [] rfl

end PlantScheduler
